import Mathlib

/-!
Shallow embedding of xtesting/core/campaign.py (class Campaign) from the
functest-xtesting repository.

Pure string computations (the link rewrite of dump_db, URL parsing, path
manipulation, object-key decoding, the multipart-threshold selection) are
transcribed directly from the Python source.  The effectful pipeline
(dump_db, dump_artifacts, zip_campaign_files) is embedded as explicit
state passing over a World record that carries the local file system, the
object-store contents, the environment variables and an event trace.
External failures (network transport, credentials, upload errors) are
World fields read at the program point where the corresponding Python
call would raise; each stage's try/except boundary is the corresponding
match/if structure of the embedded function.
-/

/-- Exit code os.EX_OK (0). -/
def os_EX_OK : Int := 0

/-- Exit code os.EX_SOFTWARE (sysexits value 70). -/
def os_EX_SOFTWARE : Int := 70

/-- Campaign.EX_OK. -/
def EX_OK : Int := os_EX_OK

/-- Campaign.EX_DUMP_FROM_DB_ERROR = os.EX_SOFTWARE - 5 (= 65). -/
def EX_DUMP_FROM_DB_ERROR : Int := os_EX_SOFTWARE - 5

/-- Campaign.EX_DUMP_ARTIFACTS_ERROR = os.EX_SOFTWARE - 6 (= 64). -/
def EX_DUMP_ARTIFACTS_ERROR : Int := os_EX_SOFTWARE - 6

/-- Campaign.EX_ZIP_CAMPAIGN_FILES_ERROR = os.EX_SOFTWARE - 7 (= 63). -/
def EX_ZIP_CAMPAIGN_FILES_ERROR : Int := os_EX_SOFTWARE - 7

/-- zipfile.ZIP_DEFLATED, the deflate compression method constant (8). -/
def ZIP_DEFLATED : Nat := 8

/-- Boolean test that the string p is a leading piece of s (str.startswith). -/
def strStarts (p s : String) : Bool := p.data.isPrefixOf s.data

/-- Boolean substring test (Python `needle in hay`). -/
def containsSub (needle hay : String) : Bool :=
  hay.data.tails.any (fun t => needle.data.isPrefixOf t)

/-- Value of a hexadecimal digit character, as accepted by urllib percent
decoding (0-9, A-F, a-f). -/
def hexVal (c : Char) : Option Nat :=
  if 48 ≤ c.toNat ∧ c.toNat ≤ 57 then some (c.toNat - 48)
  else if 65 ≤ c.toNat ∧ c.toNat ≤ 70 then some (c.toNat - 55)
  else if 97 ≤ c.toNat ∧ c.toNat ≤ 102 then some (c.toNat - 87)
  else none

/-- Core of urllib.parse.unquote_plus on a character list: a plus sign
becomes a space and a percent sign followed by two hex digits becomes the
denoted byte; invalid escapes are kept verbatim.  Decoded bytes are
represented one character per byte (faithful for ASCII data; a multi-byte
UTF-8 escape sequence is kept as its individual bytes).  The first
argument is computation fuel, always called with the list length: every
step consumes at least one character per unit of fuel, so the zero case
is only reached on the empty list. -/
def uqpFuel : Nat → List Char → List Char
  | 0, l => l
  | _ + 1, [] => []
  | fuel + 1, '+' :: rest => ' ' :: uqpFuel fuel rest
  | fuel + 1, '%' :: d1 :: d2 :: rest2 =>
    match hexVal d1, hexVal d2 with
    | some a, some b => Char.ofNat (16 * a + b) :: uqpFuel fuel rest2
    | _, _ => '%' :: uqpFuel fuel (d1 :: d2 :: rest2)
  | fuel + 1, c :: rest => c :: uqpFuel fuel rest

/-- urllib.parse.unquote_plus on strings. -/
def unquote_plus (s : String) : String := String.mk (uqpFuel s.data.length s.data)

/-- Locate the first scheme separator "://" and return what follows it,
as done by urllib.parse.urlparse on URLs of the shape scheme://netloc/path
(query and fragment components are assumed absent, as in the repository's
S3 and HTTP destination URLs). -/
def afterSchemeSep : List Char → Option (List Char)
  | [] => none
  | a :: rest =>
    if a = ':' ∧ rest.take 2 = ['/', '/'] then some (rest.drop 2)
    else afterSchemeSep rest

/-- urllib.parse.urlparse(url).netloc for scheme://netloc/path URLs. -/
def urlparse_netloc (url : String) : String :=
  match afterSchemeSep url.data with
  | some rest => String.mk (rest.takeWhile (fun c => c ≠ '/'))
  | none => ""

/-- urllib.parse.urlparse(url).path for scheme://netloc/path URLs (the
whole input when no scheme separator is present). -/
def urlparse_path (url : String) : String :=
  match afterSchemeSep url.data with
  | some rest => String.mk (rest.dropWhile (fun c => c ≠ '/'))
  | none => url

/-- dump_artifacts line 125-126: re.search('^/*(.*)/*$', path).group(1).
The leading /* is greedy and consumes every leading slash; the group (.*)
is greedy and then consumes the whole remainder, so the trailing /* always
matches the empty string: group 1 is the path with leading slashes
removed and any trailing slash kept. -/
def dump_artifacts_s3path (p : String) : String :=
  String.mk (p.data.dropWhile (fun c => c = '/'))

/-- zip_campaign_files line 192: urlparse(dst_s3_url).path.strip("/"),
removing slashes at both ends. -/
def zip_dst_path (p : String) : String :=
  String.mk (((p.data.dropWhile (fun c => c = '/')).reverse.dropWhile
    (fun c => c = '/')).reverse)

/-- os.path.join(a, b) for two components (posixpath.join). -/
def os_path_join (a b : String) : String :=
  if strStarts "/" b then b
  else if a = "" then b
  else if a.data.getLast? = some '/' then a ++ b
  else a ++ "/" ++ b

/-- Head component of os.path.split(p) (posixpath.split): everything up
to the last slash, with trailing slashes then stripped unless the head
consists only of slashes. -/
def os_path_split_head (s : String) : String :=
  let head := ((s.data.reverse.dropWhile (fun c => c ≠ '/'))).reverse
  if head ≠ [] ∧ head.any (fun c => c ≠ '/') then
    String.mk (head.reverse.dropWhile (fun c => c = '/')).reverse
  else String.mk head

/-- dump_artifacts lines 133 and 138/143: re.sub of a pattern built by the
f-string '^' ++ s3path ++ '/*' with the empty replacement: when the
(metacharacter-free) s3path is a leading piece of s, it is removed
together with every slash that follows it; otherwise s is unchanged.  The
anchored pattern can only replace at the start of the string. -/
def strip_s3path (s3p s : String) : String :=
  if strStarts s3p s then
    String.mk ((s.data.drop s3p.data.length).dropWhile (fun c => c = '/'))
  else s

/-- Multipart threshold chosen by dump_artifacts lines 121-122:
5 * 1024 ** 5 when "google" occurs in S3_ENDPOINT_URL, else
8 * 1024 * 1024. -/
def dump_artifacts_multipart_threshold (endpoint : String) : Nat :=
  if containsSub "google" endpoint = true then 5 * 1024 ^ 5 else 8 * 1024 * 1024

/-- Multipart threshold chosen by zip_campaign_files lines 187-188, the
same expression as in dump_artifacts. -/
def zip_multipart_threshold (endpoint : String) : Nat :=
  if containsSub "google" endpoint = true then 5 * 1024 ^ 5 else 8 * 1024 * 1024

/-- Character class ['HTTP_DST_URL'] appearing inside the dump_db regex:
one of the characters quote, H, T, P, underscore, D, S, U, R, L. -/
def linkClassChar (c : Char) : Bool :=
  c == Char.ofNat 39 || c == 'H' || c == 'T' || c == 'P' || c == '_' ||
  c == 'D' || c == 'S' || c == 'U' || c == 'R' || c == 'L'

/-- Matcher for the regex that dump_db line 80-81 actually compiles.  The
pattern string lacks the f prefix, so the regex is the literal text
"^\x7bos.environ['HTTP_DST_URL']\x7d/*" in which the dot matches any
character and the bracketed part is a character class: a match is the
literal "\x7bos", any character, "environ", one class character, "\x7d",
then greedily any number of slashes.  Returns the remainder after the
matched leading piece, or none when the anchored pattern does not match. -/
def matchBrokenPattern (l : List Char) : Option (List Char) :=
  match l with
  | b :: o1 :: s1 :: _c4 :: e1 :: n1 :: v1 :: i1 :: r1 :: o2 :: n2 :: cc :: rb :: rest =>
    if b == Char.ofNat 123 && o1 == 'o' && s1 == 's' && e1 == 'e' &&
       n1 == 'n' && v1 == 'v' && i1 == 'i' && r1 == 'r' && o2 == 'o' &&
       n2 == 'n' && linkClassChar cc && rb == Char.ofNat 125
    then some (rest.dropWhile (fun c => c = '/'))
    else none
  | _ => none

/-- Link rewrite performed by dump_db lines 80-82: re.sub of the broken
literal pattern with the empty string (anchored, hence at most one
replacement, at the start of the link). -/
def dump_db_rewrite_link (link : String) : String :=
  match matchBrokenPattern link.data with
  | some rest => String.mk rest
  | none => link

/-- One entry of the results list: its details block carries a list of
link strings (the only part of a TestResult that dump_db touches). -/
structure TestResult where
  links : List String
deriving DecidableEq

/-- Body of the results-API response: {"results": [...]}. -/
structure CampaignResult where
  results : List TestResult
deriving DecidableEq

/-- The double loop of dump_db lines 77-82 over results and links. -/
def rewriteTestResult (t : TestResult) : TestResult :=
  ⟨t.links.map dump_db_rewrite_link⟩

/-- Rewrite applied to the whole fetched record before it is dumped. -/
def rewriteCampaign (c : CampaignResult) : CampaignResult :=
  ⟨c.results.map rewriteTestResult⟩

/-- One object of the S3 store: its key and its content bytes. -/
structure S3Object where
  key : String
  content : String
deriving DecidableEq

/-- Content of a local file: the dumped JSON document, raw downloaded
bytes, or a zip archive recording its compression method and member
names. -/
inductive FileEntry where
  | jsonDoc : CampaignResult → FileEntry
  | blob : String → FileEntry
  | zipArchive : Nat → List String → FileEntry
deriving DecidableEq

/-- Local file system: named files and the set of directories created. -/
structure FS where
  files : List (String × FileEntry)
  dirs : List String
deriving DecidableEq

/-- Remove every entry with the given name (used when a write overwrites
an existing file). -/
def eraseKey (p : String) : List (String × FileEntry) → List (String × FileEntry)
  | [] => []
  | q :: rest => if q.1 = p then eraseKey p rest else q :: eraseKey p rest

/-- Find the content of the named file. -/
def lookupKey (p : String) : List (String × FileEntry) → Option FileEntry
  | [] => none
  | q :: rest => if q.1 = p then some q.2 else lookupKey p rest

/-- Write a file, overwriting any file of the same name. -/
def fsWrite (fs : FS) (p : String) (e : FileEntry) : FS :=
  { fs with files := (p, e) :: eraseKey p fs.files }

/-- os.path.exists: the path names an existing file or directory. -/
def fsExists (fs : FS) (p : String) : Bool :=
  (lookupKey p fs.files).isSome || decide (p ∈ fs.dirs)

/-- Observable actions of the pipeline: entering dump_artifacts,
uploading an object, and the three log messages of the
zip_campaign_files exception handlers. -/
inductive Event where
  | callDumpArtifacts : Event
  | upload : String → String → Event
  | logMissingEnv : String → Event
  | logFillCredentials : Event
  | logCannotPublish : Event
deriving DecidableEq

/-- Outcome of the results-API GET request: a transport failure, or a
status code together with the parsed body (none models a body that is
not of the expected JSON shape). -/
inductive DbResponse where
  | transportError : DbResponse
  | response : Nat → Option CampaignResult → DbResponse
deriving DecidableEq

/-- State threaded through the pipeline: the build tag (env BUILD_TAG),
what the results API answers, the object-store contents, the three
environment URLs (none models an unset variable, raising KeyError where
os.environ is indexed), whether object-store credentials resolve, whether
the upload transport succeeds, whether the listing/download transport
succeeds, the local file system and the event trace. -/
structure World where
  buildTag : String
  dbResponse : DbResponse
  store : List S3Object
  s3EndpointUrl : Option String
  s3DstUrl : Option String
  httpDstUrl : Option String
  credentialsOk : Bool
  uploadOk : Bool
  artifactsTransportOk : Bool
  fs : FS
  events : List Event

/-- Code and file-system outcome of Campaign.dump_db (lines 69-91): a
transport error, a raise_for_status on a 4xx/5xx status, or an
unexpectedly shaped body each fall to the broad except clause; otherwise
the rewritten record is written to BUILD_TAG.json. -/
def dump_db_result (w : World) : Int × FS :=
  match w.dbResponse with
  | DbResponse.transportError => (EX_DUMP_FROM_DB_ERROR, w.fs)
  | DbResponse.response st obody =>
    if 400 ≤ st ∧ st ≤ 599 then (EX_DUMP_FROM_DB_ERROR, w.fs)
    else
      match obody with
      | none => (EX_DUMP_FROM_DB_ERROR, w.fs)
      | some cr =>
        (EX_OK, fsWrite w.fs (w.buildTag ++ ".json")
          (FileEntry.jsonDoc (rewriteCampaign cr)))

/-- Campaign.dump_db as a World transformer. -/
def dump_db (w : World) : Int × World :=
  ((dump_db_result w).1, { w with fs := (dump_db_result w).2 })

/-- Target local path of one listed object (dump_artifacts lines
141-144): the unquote_plus-decoded key with the s3path piece and the
slashes after it stripped. -/
def targetOf (s3p : String) (o : S3Object) : String :=
  strip_s3path s3p (unquote_plus o.key)

/-- Directory path prepared for one listed object (dump_artifacts lines
131-133): the head of os.path.split of the decoded key, with the s3path
piece stripped. -/
def lpathOf (s3p : String) (o : S3Object) : String :=
  strip_s3path s3p (os_path_split_head (unquote_plus o.key))

/-- Chain of directories that os.makedirs(p) walks: p preceded by its
iterated os.path.split heads (for a/b/c the chain a, a/b, a/b/c).  The
first argument is fuel, always called with the length of p: each
split-head step shortens a relative path, so the fuel bound is never the
limiting factor for the program's (relative, slash-separated) paths. -/
def dirChainFuel : Nat → String → List String
  | 0, _ => []
  | fuel + 1, p =>
    if p = "" then []
    else dirChainFuel fuel (os_path_split_head p) ++ [p]

/-- Directory chain of a path. -/
def dirChain (p : String) : List String := dirChainFuel p.data.length p

/-- os.makedirs(lp) as called by dump_artifacts line 135: create lp and
every missing directory of its chain.  The first mkdir attempted is the
shallowest missing one, so when some chain element already exists as a
regular file the call raises (ENOTDIR/EEXIST) before creating anything;
directories already present on the chain are simply kept.  none models
the raised OSError, which the broad except of dump_artifacts turns into
its error code. -/
def makedirs (fs : FS) (lp : String) : Option FS :=
  if (dirChain lp).all (fun d => !(lookupKey d fs.files).isSome)
  then some { fs with dirs := dirChain lp ++ fs.dirs }
  else none

/-- Bucket.download_file to a local target path (dump_artifacts lines
141-145): writing the fetched bytes fails (false) when the target is an
existing directory (IsADirectoryError), names a directory slot (trailing
slash), or its containing directory does not exist as a directory
(FileNotFoundError/NotADirectoryError, in particular when a path
component exists as a regular file); otherwise the target file is
written, overwriting any previous file of that name. -/
def download_file (fs : FS) (target : String) (content : String) : Bool × FS :=
  if target ∉ fs.dirs ∧ target.data.getLast? ≠ some '/' ∧
     (os_path_split_head target = "" ∨ os_path_split_head target ∈ fs.dirs)
  then (true, fsWrite fs target (FileEntry.blob content))
  else (false, fs)

/-- Body of the download loop for one object (dump_artifacts lines
129-145): create the target directory chain when the directory part is
nonempty and does not exist, then download the object to its target
path.  The Bool is false when makedirs or the download raises; the
returned file system keeps whatever had been created before the raise
(nothing for a failed makedirs, the created directories for a failed
download). -/
def collect_object (s3p : String) (o : S3Object) (fs : FS) : Bool × FS :=
  match (if lpathOf s3p o ≠ "" ∧ fsExists fs (lpathOf s3p o) = false
         then makedirs fs (lpathOf s3p o) else some fs) with
  | none => (false, fs)
  | some fs1 => download_file fs1 (targetOf s3p o) o.content

/-- The download loop over the listed objects: a failure on any single
object aborts the whole collection, keeping the partial tree. -/
def collectLoop (s3p : String) (objs : List S3Object) (fs : FS) : Bool × FS :=
  match objs with
  | [] => (true, fs)
  | o :: rest =>
    if (collect_object s3p o fs).1 = true
    then collectLoop s3p rest (collect_object s3p o fs).2
    else (false, (collect_object s3p o fs).2)

/-- s3path extracted from S3_DST_URL by dump_artifacts lines 124-126. -/
def s3path_of_dst (dst : String) : String :=
  dump_artifacts_s3path (urlparse_path dst)

/-- Directory part of the listing filter, os.path.join(s3path, build_tag)
of dump_artifacts line 127. -/
def da_list_dir (dst tag : String) : String :=
  os_path_join (s3path_of_dst dst) tag

/-- Objects returned by the bucket listing with Prefix=f"{prefix}/"
(dump_artifacts lines 129-130): those whose key starts with the prefix
followed by a slash. -/
def listed_objects (dst tag : String) (store : List S3Object) : List S3Object :=
  store.filter (fun o => strStarts (da_list_dir dst tag ++ "/") o.key)

/-- Code and file-system outcome of Campaign.dump_artifacts (lines
116-149): a missing S3_ENDPOINT_URL or S3_DST_URL raises KeyError into
the broad except clause, a listing/transport failure likewise; otherwise
every listed object is downloaded in turn, and a makedirs or download
failure on any object aborts the loop with the partial tree kept and the
error code returned. -/
def dump_artifacts_result (w : World) : Int × FS :=
  match w.s3EndpointUrl with
  | none => (EX_DUMP_ARTIFACTS_ERROR, w.fs)
  | some _ =>
    match w.s3DstUrl with
    | none => (EX_DUMP_ARTIFACTS_ERROR, w.fs)
    | some dst =>
      if w.artifactsTransportOk = true then
        ((if (collectLoop (s3path_of_dst dst)
              (listed_objects dst w.buildTag w.store) w.fs).1 = true
          then EX_OK else EX_DUMP_ARTIFACTS_ERROR),
         (collectLoop (s3path_of_dst dst)
           (listed_objects dst w.buildTag w.store) w.fs).2)
      else (EX_DUMP_ARTIFACTS_ERROR, w.fs)

/-- Campaign.dump_artifacts as a World transformer; entering the function
is recorded on the event trace. -/
def dump_artifacts (w : World) : Int × World :=
  ((dump_artifacts_result w).1,
   { w with fs := (dump_artifacts_result w).2,
            events := w.events ++ [Event.callDumpArtifacts] })

/-- Member names of the archive built by zip_campaign_files lines
178-183: BUILD_TAG.json, then every file found by os.walk of the
BUILD_TAG directory at its relative path (in the flat file-system model:
every file whose path starts with the BUILD_TAG directory). -/
def archiveMembers (tag : String) (fs : FS) : List String :=
  (tag ++ ".json") :: (fs.files.map Prod.fst).filter (fun p => strStarts (tag ++ "/") p)

/-- Campaign.zip_campaign_files (lines 174-215).  The two assert
statements raise AssertionError into the broad except clause when a
dependency does not return EX_OK; writing the archive needs the JSON
file; the environment reads raise KeyError when unset; upload_file
raises NoCredentialsError or a generic error; HTTP_DST_URL is read only
after the upload.  Each handler returns EX_ZIP_CAMPAIGN_FILES_ERROR and
logs its own diagnostic, recorded as an event. -/
def zip_campaign_files (w : World) : Int × World :=
  let p1 := dump_db w
  if p1.1 = EX_OK then
    let p2 := dump_artifacts p1.2
    if p2.1 = EX_OK then
      match lookupKey (w.buildTag ++ ".json") p2.2.fs.files with
      | none =>
        (EX_ZIP_CAMPAIGN_FILES_ERROR,
         { p2.2 with events := p2.2.events ++ [Event.logCannotPublish] })
      | some _ =>
        let arch := FileEntry.zipArchive ZIP_DEFLATED (archiveMembers w.buildTag p2.2.fs)
        let w3 := { p2.2 with fs := fsWrite p2.2.fs (w.buildTag ++ ".zip") arch }
        match w3.s3EndpointUrl with
        | none =>
          (EX_ZIP_CAMPAIGN_FILES_ERROR,
           { w3 with events := w3.events ++ [Event.logMissingEnv "S3_ENDPOINT_URL"] })
        | some ep =>
          match w3.s3DstUrl with
          | none =>
            (EX_ZIP_CAMPAIGN_FILES_ERROR,
             { w3 with events := w3.events ++ [Event.logMissingEnv "S3_DST_URL"] })
          | some dst =>
            let _tc := zip_multipart_threshold ep
            if w3.credentialsOk = true then
              if w3.uploadOk = true then
                let upev := Event.upload (urlparse_netloc dst)
                  (os_path_join (zip_dst_path (urlparse_path dst)) (w.buildTag ++ ".zip"))
                let w4 := { w3 with events := w3.events ++ [upev] }
                match w4.httpDstUrl with
                | none =>
                  (EX_ZIP_CAMPAIGN_FILES_ERROR,
                   { w4 with events := w4.events ++ [Event.logMissingEnv "HTTP_DST_URL"] })
                | some _ => (EX_OK, w4)
              else
                (EX_ZIP_CAMPAIGN_FILES_ERROR,
                 { w3 with events := w3.events ++ [Event.logCannotPublish] })
            else
              (EX_ZIP_CAMPAIGN_FILES_ERROR,
               { w3 with events := w3.events ++ [Event.logFillCredentials] })
    else
      (EX_ZIP_CAMPAIGN_FILES_ERROR,
       { p2.2 with events := p2.2.events ++ [Event.logCannotPublish] })
  else
    (EX_ZIP_CAMPAIGN_FILES_ERROR,
     { p1.2 with events := p1.2.events ++ [Event.logCannotPublish] })

/-- Code of dump_db is that of its result computation. -/
@[simp] theorem dump_db_code (w : World) : (dump_db w).1 = (dump_db_result w).1 := rfl

/-- File system after dump_db. -/
@[simp] theorem dump_db_fs (w : World) : (dump_db w).2.fs = (dump_db_result w).2 := rfl

/-- dump_db leaves the build tag unchanged. -/
@[simp] theorem dump_db_buildTag (w : World) : (dump_db w).2.buildTag = w.buildTag := rfl

/-- dump_db appends no event. -/
@[simp] theorem dump_db_events (w : World) : (dump_db w).2.events = w.events := rfl

/-- dump_db leaves the store unchanged. -/
@[simp] theorem dump_db_store (w : World) : (dump_db w).2.store = w.store := rfl

/-- dump_db leaves the DB response unchanged. -/
@[simp] theorem dump_db_dbResponse (w : World) : (dump_db w).2.dbResponse = w.dbResponse := rfl

/-- dump_db leaves S3_ENDPOINT_URL unchanged. -/
@[simp] theorem dump_db_s3EndpointUrl (w : World) : (dump_db w).2.s3EndpointUrl = w.s3EndpointUrl := rfl

/-- dump_db leaves S3_DST_URL unchanged. -/
@[simp] theorem dump_db_s3DstUrl (w : World) : (dump_db w).2.s3DstUrl = w.s3DstUrl := rfl

/-- dump_db leaves HTTP_DST_URL unchanged. -/
@[simp] theorem dump_db_httpDstUrl (w : World) : (dump_db w).2.httpDstUrl = w.httpDstUrl := rfl

/-- dump_db leaves the credentials state unchanged. -/
@[simp] theorem dump_db_credentialsOk (w : World) : (dump_db w).2.credentialsOk = w.credentialsOk := rfl

/-- dump_db leaves the upload transport state unchanged. -/
@[simp] theorem dump_db_uploadOk (w : World) : (dump_db w).2.uploadOk = w.uploadOk := rfl

/-- dump_db leaves the listing transport state unchanged. -/
@[simp] theorem dump_db_artifactsTransportOk (w : World) :
    (dump_db w).2.artifactsTransportOk = w.artifactsTransportOk := rfl

/-- Code of dump_artifacts is that of its result computation. -/
@[simp] theorem dump_artifacts_code (w : World) :
    (dump_artifacts w).1 = (dump_artifacts_result w).1 := rfl

/-- File system after dump_artifacts. -/
@[simp] theorem dump_artifacts_fs (w : World) :
    (dump_artifacts w).2.fs = (dump_artifacts_result w).2 := rfl

/-- dump_artifacts records exactly one event, entering the function. -/
@[simp] theorem dump_artifacts_events (w : World) :
    (dump_artifacts w).2.events = w.events ++ [Event.callDumpArtifacts] := rfl

/-- dump_artifacts leaves the build tag unchanged. -/
@[simp] theorem dump_artifacts_buildTag (w : World) : (dump_artifacts w).2.buildTag = w.buildTag := rfl

/-- dump_artifacts leaves the store unchanged. -/
@[simp] theorem dump_artifacts_store (w : World) : (dump_artifacts w).2.store = w.store := rfl

/-- dump_artifacts leaves the DB response unchanged. -/
@[simp] theorem dump_artifacts_dbResponse (w : World) :
    (dump_artifacts w).2.dbResponse = w.dbResponse := rfl

/-- dump_artifacts leaves S3_ENDPOINT_URL unchanged. -/
@[simp] theorem dump_artifacts_s3EndpointUrl (w : World) :
    (dump_artifacts w).2.s3EndpointUrl = w.s3EndpointUrl := rfl

/-- dump_artifacts leaves S3_DST_URL unchanged. -/
@[simp] theorem dump_artifacts_s3DstUrl (w : World) :
    (dump_artifacts w).2.s3DstUrl = w.s3DstUrl := rfl

/-- dump_artifacts leaves HTTP_DST_URL unchanged. -/
@[simp] theorem dump_artifacts_httpDstUrl (w : World) :
    (dump_artifacts w).2.httpDstUrl = w.httpDstUrl := rfl

/-- dump_artifacts leaves the credentials state unchanged. -/
@[simp] theorem dump_artifacts_credentialsOk (w : World) :
    (dump_artifacts w).2.credentialsOk = w.credentialsOk := rfl

/-- dump_artifacts leaves the upload transport state unchanged. -/
@[simp] theorem dump_artifacts_uploadOk (w : World) :
    (dump_artifacts w).2.uploadOk = w.uploadOk := rfl

/-- dump_artifacts leaves the listing transport state unchanged. -/
@[simp] theorem dump_artifacts_artifactsTransportOk (w : World) :
    (dump_artifacts w).2.artifactsTransportOk = w.artifactsTransportOk := rfl

/-- Erasing a name that does not occur is the identity. -/
theorem eraseKey_not_mem {t : String} :
    ∀ {l : List (String × FileEntry)}, t ∉ l.map Prod.fst → eraseKey t l = l := by
  intro l
  induction l with
  | nil => intro _; rfl
  | cons a l ih =>
    intro h
    simp only [List.map_cons, List.mem_cons, not_or] at h
    unfold eraseKey
    rw [if_neg (fun hh : a.1 = t => h.1 hh.symm), ih h.2]

/-- Looking up a name different from the erased one is unaffected. -/
theorem lookupKey_eraseKey_ne {p t : String} (h : p ≠ t) :
    ∀ (l : List (String × FileEntry)), lookupKey p (eraseKey t l) = lookupKey p l := by
  intro l
  induction l with
  | nil => rfl
  | cons a l ih =>
    by_cases h1 : a.1 = t
    · have h2 : a.1 ≠ p := by rw [h1]; exact fun hh => h hh.symm
      simp only [eraseKey, if_pos h1, lookupKey, if_neg h2]
      exact ih
    · by_cases h2 : a.1 = p
      · simp only [eraseKey, if_neg h1, lookupKey, if_pos h2]
      · simp only [eraseKey, if_neg h1, lookupKey, if_neg h2]
        exact ih

/-- A successful lookup means the name occurs. -/
theorem lookupKey_isSome_mem {p : String} :
    ∀ {l : List (String × FileEntry)}, (lookupKey p l).isSome = true → p ∈ l.map Prod.fst := by
  intro l
  induction l with
  | nil => intro h; simp [lookupKey] at h
  | cons a l ih =>
    intro h
    by_cases h1 : a.1 = p
    · simp [h1]
    · simp only [lookupKey, if_neg h1] at h
      simp [ih h]

/-- Looking up the just-written file finds the new content. -/
theorem lookupKey_fsWrite_self (fs : FS) (p : String) (e : FileEntry) :
    lookupKey p (fsWrite fs p e).files = some e := by
  simp [fsWrite, lookupKey]

/-- Looking up any other file is unaffected by a write. -/
theorem lookupKey_fsWrite_ne (fs : FS) (p q : String) (e : FileEntry) (h : q ≠ p) :
    lookupKey q (fsWrite fs p e).files = lookupKey q fs.files := by
  simp only [fsWrite, lookupKey, if_neg (fun hh : p = q => h hh.symm)]
  exact lookupKey_eraseKey_ne h fs.files

/-- A write never deletes an existing file. -/
theorem lookupKey_isSome_fsWrite (fs : FS) (p q : String) (e : FileEntry)
    (h : (lookupKey q fs.files).isSome = true) :
    (lookupKey q (fsWrite fs p e).files).isSome = true := by
  by_cases hq : q = p
  · subst hq; rw [lookupKey_fsWrite_self]; rfl
  · rw [lookupKey_fsWrite_ne fs p q e hq]; exact h

/-- A name that does not occur looks up to none. -/
theorem lookupKey_none_of_not_mem {p : String} :
    ∀ {l : List (String × FileEntry)}, p ∉ l.map Prod.fst → lookupKey p l = none := by
  intro l
  induction l with
  | nil => intro _; rfl
  | cons a l ih =>
    intro h
    simp only [List.map_cons, List.mem_cons, not_or] at h
    simp only [lookupKey, if_neg (fun hh : a.1 = p => h.1 hh.symm)]
    exact ih h.2

/-- A nonempty path lies on its own directory chain. -/
theorem self_mem_dirChain (p : String) (h : p ≠ "") : p ∈ dirChain p := by
  unfold dirChain
  cases hl : p.data.length with
  | zero =>
    exfalso
    apply h
    cases p with
    | mk d =>
      have hd : d = [] := List.length_eq_zero.mp hl
      rw [hd]
  | succ n =>
    simp only [dirChainFuel, if_neg h]
    exact List.mem_append_right _ (List.mem_singleton_self p)

/-- makedirs succeeds when no element of the directory chain exists as a
regular file, creating the whole chain. -/
theorem makedirs_some (fs : FS) (lp : String)
    (h : ∀ d ∈ dirChain lp, d ∉ fs.files.map Prod.fst) :
    makedirs fs lp = some { fs with dirs := dirChain lp ++ fs.dirs } := by
  unfold makedirs
  have hc : ((dirChain lp).all (fun d => !(lookupKey d fs.files).isSome)) = true := by
    rw [List.all_eq_true]
    intro d hd
    rw [lookupKey_none_of_not_mem (h d hd)]
    simp
  rw [if_pos hc]

/-- A successful makedirs returns exactly the chain-extended system. -/
theorem makedirs_shape (fs : FS) (lp : String) (fs1 : FS)
    (h : makedirs fs lp = some fs1) :
    fs1 = { fs with dirs := dirChain lp ++ fs.dirs } := by
  unfold makedirs at h
  split at h
  · injection h with h2
    exact h2.symm
  · cases h

/-- The intermediate system of a loop iteration keeps the files. -/
theorem collect_object_fs1_files (s3p : String) (o : S3Object) (fs fs1 : FS)
    (h : (if lpathOf s3p o ≠ "" ∧ fsExists fs (lpathOf s3p o) = false
          then makedirs fs (lpathOf s3p o) else some fs) = some fs1) :
    fs1.files = fs.files := by
  split at h
  · rw [makedirs_shape _ _ _ h]
  · injection h with h2
    rw [← h2]

/-- The intermediate system of a loop iteration keeps the directories. -/
theorem collect_object_fs1_dirs (s3p : String) (o : S3Object) (fs fs1 : FS)
    (h : (if lpathOf s3p o ≠ "" ∧ fsExists fs (lpathOf s3p o) = false
          then makedirs fs (lpathOf s3p o) else some fs) = some fs1)
    (d : String) (hd : d ∈ fs.dirs) : d ∈ fs1.dirs := by
  split at h
  · rw [makedirs_shape _ _ _ h]
    exact List.mem_append_right _ hd
  · injection h with h2
    rw [← h2]
    exact hd

/-- Files after one loop iteration: unchanged (the iteration raised
somewhere) or overwritten with the target entry. -/
theorem collect_object_files_cases (s3p : String) (o : S3Object) (fs : FS) :
    (collect_object s3p o fs).2.files = fs.files ∨
      (collect_object s3p o fs).2.files =
        (targetOf s3p o, FileEntry.blob o.content) :: eraseKey (targetOf s3p o) fs.files := by
  unfold collect_object
  split
  next hm => exact Or.inl rfl
  next fs1 hm =>
    have hf1 := collect_object_fs1_files s3p o fs fs1 hm
    unfold download_file
    split
    next hcnd =>
      right
      unfold fsWrite
      dsimp only
      rw [hf1]
    next hcnd => exact Or.inl hf1

/-- One loop iteration only adds directories. -/
theorem collect_object_dirs_mono (s3p : String) (o : S3Object) (fs : FS) (d : String)
    (h : d ∈ fs.dirs) : d ∈ (collect_object s3p o fs).2.dirs := by
  unfold collect_object
  split
  next hm => exact h
  next fs1 hm =>
    have hd1 := collect_object_fs1_dirs s3p o fs fs1 hm d h
    unfold download_file
    split
    next hcnd => exact hd1
    next hcnd => exact hd1

/-- One loop iteration never deletes an existing file. -/
theorem lookupKey_isSome_collect (s3p : String) (o : S3Object) (fs : FS) (p : String)
    (h : (lookupKey p fs.files).isSome = true) :
    (lookupKey p (collect_object s3p o fs).2.files).isSome = true := by
  rcases collect_object_files_cases s3p o fs with hc | hc
  · rw [hc]
    exact h
  · rw [hc]
    by_cases hp : targetOf s3p o = p
    · simp [lookupKey, hp]
    · simp only [lookupKey, if_neg hp]
      rw [lookupKey_eraseKey_ne (fun hh => hp hh.symm)]
      exact h

/-- The download loop only adds directories. -/
theorem collectLoop_dirs_mono (s3p : String) (objs : List S3Object) :
    ∀ (fs : FS) (d : String), d ∈ fs.dirs → d ∈ (collectLoop s3p objs fs).2.dirs := by
  induction objs with
  | nil => intro fs d h; exact h
  | cons o rest ih =>
    intro fs d h
    unfold collectLoop
    split
    · exact ih _ _ (collect_object_dirs_mono s3p o fs d h)
    · exact collect_object_dirs_mono s3p o fs d h

/-- The download loop never deletes an existing file. -/
theorem collectLoop_lookup_isSome (s3p : String) (objs : List S3Object) :
    ∀ (fs : FS) (p : String), (lookupKey p fs.files).isSome = true →
      (lookupKey p (collectLoop s3p objs fs).2.files).isSome = true := by
  induction objs with
  | nil => intro fs p h; exact h
  | cons o rest ih =>
    intro fs p h
    unfold collectLoop
    split
    · exact ih _ _ (lookupKey_isSome_collect s3p o fs p h)
    · exact lookupKey_isSome_collect s3p o fs p h

/-- Paths outside the loop's targets are untouched by the loop. -/
theorem collectLoop_frame (s3p : String) (objs : List S3Object) :
    ∀ (fs : FS) (p : String), p ∉ objs.map (targetOf s3p) →
      lookupKey p (collectLoop s3p objs fs).2.files = lookupKey p fs.files := by
  induction objs with
  | nil => intro fs p _; rfl
  | cons o rest ih =>
    intro fs p h
    simp only [List.map_cons, List.mem_cons, not_or] at h
    have hco : lookupKey p (collect_object s3p o fs).2.files = lookupKey p fs.files := by
      rcases collect_object_files_cases s3p o fs with hc | hc
      · rw [hc]
      · rw [hc]
        have hne : targetOf s3p o ≠ p := fun hh => h.1 hh.symm
        simp only [lookupKey, if_neg hne]
        exact lookupKey_eraseKey_ne (fun hh => h.1 hh) fs.files
    unfold collectLoop
    split
    · rw [ih _ _ h.2, hco]
    · exact hco

/-- A loop iteration succeeds when no chain element of the object's
directory path exists as a file, the target is not a directory (nor on
the chain, nor a trailing-slash name), and the target's containing
directory is the object's directory path: the target file is written
over an intermediate system that keeps the files and only extends the
directories by the chain. -/
theorem collect_object_success (s3p : String) (o : S3Object) (fs : FS)
    (hchain : ∀ d ∈ dirChain (lpathOf s3p o), d ∉ fs.files.map Prod.fst)
    (htdir : targetOf s3p o ∉ fs.dirs)
    (htchain : targetOf s3p o ∉ dirChain (lpathOf s3p o))
    (hpar : os_path_split_head (targetOf s3p o) = lpathOf s3p o)
    (htail : (targetOf s3p o).data.getLast? ≠ some '/') :
    ∃ fs1 : FS,
      collect_object s3p o fs =
        (true, fsWrite fs1 (targetOf s3p o) (FileEntry.blob o.content)) ∧
      fs1.files = fs.files ∧
      (∀ d ∈ fs.dirs, d ∈ fs1.dirs) ∧
      (∀ d ∈ fs1.dirs, d ∈ dirChain (lpathOf s3p o) ∨ d ∈ fs.dirs) ∧
      (lpathOf s3p o = "" ∨ lpathOf s3p o ∈ fs1.dirs) := by
  by_cases hC : lpathOf s3p o ≠ "" ∧ fsExists fs (lpathOf s3p o) = false
  · refine ⟨{ fs with dirs := dirChain (lpathOf s3p o) ++ fs.dirs }, ?_, rfl,
      fun d hd => List.mem_append_right _ hd,
      fun d hd => List.mem_append.mp hd,
      Or.inr (List.mem_append_left _ (self_mem_dirChain _ hC.1))⟩
    unfold collect_object
    rw [if_pos hC, makedirs_some fs _ hchain]
    dsimp only
    unfold download_file
    rw [if_pos ?_]
    refine ⟨?_, htail, ?_⟩
    · intro hmem
      rcases List.mem_append.mp hmem with hm | hm
      · exact htchain hm
      · exact htdir hm
    · right
      rw [hpar]
      exact List.mem_append_left _ (self_mem_dirChain _ hC.1)
  · have hlp1 : lpathOf s3p o = "" ∨ lpathOf s3p o ∈ fs.dirs := by
      by_cases hlp : lpathOf s3p o = ""
      · exact Or.inl hlp
      · right
        have hex : fsExists fs (lpathOf s3p o) = true := by
          rcases not_and_or.mp hC with h1 | h1
          · exact absurd (not_not.mp h1) hlp
          · cases hb : fsExists fs (lpathOf s3p o)
            · exact absurd hb h1
            · rfl
        unfold fsExists at hex
        rcases Bool.or_eq_true_iff.mp hex with hf | hd
        · exact absurd (lookupKey_isSome_mem hf) (hchain _ (self_mem_dirChain _ hlp))
        · exact of_decide_eq_true hd
    refine ⟨fs, ?_, rfl, fun d hd => hd, fun d hd => Or.inr hd, hlp1⟩
    unfold collect_object
    rw [if_neg hC]
    dsimp only
    unfold download_file
    rw [if_pos ?_]
    refine ⟨htdir, htail, ?_⟩
    rw [hpar]
    rcases hlp1 with h | h
    · exact Or.inl h
    · exact Or.inr h

/-- Full specification of the download loop on a well-formed listing:
targets pairwise distinct, no target lying on any object's directory
chain, each target's containing directory equal to the object's
directory path, no trailing-slash target, and targets/chains fresh for
the starting system.  The loop then succeeds, its files are exactly the
targets (latest first) before the initial files, every object is found
at its target with its content, and every nonempty directory path was
created. -/
theorem collectLoop_spec (s3p : String) (objs : List S3Object) :
    ∀ fs : FS,
      (objs.map (targetOf s3p)).Nodup →
      (∀ o ∈ objs, ∀ o2 ∈ objs, targetOf s3p o2 ∉ dirChain (lpathOf s3p o)) →
      (∀ o ∈ objs, os_path_split_head (targetOf s3p o) = lpathOf s3p o) →
      (∀ o ∈ objs, (targetOf s3p o).data.getLast? ≠ some '/') →
      (∀ o ∈ objs, targetOf s3p o ∉ fs.files.map Prod.fst) →
      (∀ o ∈ objs, ∀ d ∈ dirChain (lpathOf s3p o), d ∉ fs.files.map Prod.fst) →
      (∀ o ∈ objs, targetOf s3p o ∉ fs.dirs) →
      (collectLoop s3p objs fs).1 = true ∧
      (collectLoop s3p objs fs).2.files.map Prod.fst =
        (objs.map (targetOf s3p)).reverse ++ fs.files.map Prod.fst ∧
      (∀ o ∈ objs, lookupKey (targetOf s3p o) (collectLoop s3p objs fs).2.files =
        some (FileEntry.blob o.content)) ∧
      (∀ o ∈ objs, lpathOf s3p o = "" ∨ lpathOf s3p o ∈ (collectLoop s3p objs fs).2.dirs) := by
  induction objs with
  | nil =>
    intro fs _ _ _ _ _ _ _
    refine ⟨rfl, by simp [collectLoop], ?_, ?_⟩
    · intro o ho; simp at ho
    · intro o ho; simp at ho
  | cons o0 rest ih =>
    intro fs hnd hch hpar htail h5 h6 h7
    simp only [List.map_cons, List.nodup_cons] at hnd
    have hmem0 : o0 ∈ o0 :: rest := List.mem_cons_self o0 rest
    obtain ⟨fs1, hco, hfiles1, hdirs_sub, hdirs_bound, hlp1⟩ :=
      collect_object_success s3p o0 fs
        (h6 o0 hmem0) (h7 o0 hmem0)
        (hch o0 hmem0 o0 hmem0)
        (hpar o0 hmem0) (htail o0 hmem0)
    have ht0fresh : targetOf s3p o0 ∉ fs.files.map Prod.fst := h5 o0 hmem0
    have hfs2files : (fsWrite fs1 (targetOf s3p o0) (FileEntry.blob o0.content)).files =
        (targetOf s3p o0, FileEntry.blob o0.content) :: fs.files := by
      unfold fsWrite
      dsimp only
      rw [hfiles1, eraseKey_not_mem ht0fresh]
    have hG5 : ∀ o ∈ rest, targetOf s3p o ∉
        (fsWrite fs1 (targetOf s3p o0) (FileEntry.blob o0.content)).files.map Prod.fst := by
      intro o ho
      rw [hfs2files]
      simp only [List.map_cons, List.mem_cons, not_or]
      exact ⟨fun hh => hnd.1 (hh ▸ List.mem_map_of_mem (targetOf s3p) ho),
             h5 o (List.mem_cons_of_mem o0 ho)⟩
    have hG6 : ∀ o ∈ rest, ∀ d ∈ dirChain (lpathOf s3p o), d ∉
        (fsWrite fs1 (targetOf s3p o0) (FileEntry.blob o0.content)).files.map Prod.fst := by
      intro o ho d hd
      rw [hfs2files]
      simp only [List.map_cons, List.mem_cons, not_or]
      exact ⟨fun hh => hch o (List.mem_cons_of_mem o0 ho) o0 hmem0 (hh ▸ hd),
             h6 o (List.mem_cons_of_mem o0 ho) d hd⟩
    have hG7 : ∀ o ∈ rest, targetOf s3p o ∉
        (fsWrite fs1 (targetOf s3p o0) (FileEntry.blob o0.content)).dirs := by
      intro o ho hmem
      rcases hdirs_bound _ hmem with hc | hc
      · exact hch o0 hmem0 o (List.mem_cons_of_mem o0 ho) hc
      · exact h7 o (List.mem_cons_of_mem o0 ho) hc
    have hIH := ih (fsWrite fs1 (targetOf s3p o0) (FileEntry.blob o0.content))
      hnd.2
      (fun o ho o2 ho2 =>
        hch o (List.mem_cons_of_mem o0 ho) o2 (List.mem_cons_of_mem o0 ho2))
      (fun o ho => hpar o (List.mem_cons_of_mem o0 ho))
      (fun o ho => htail o (List.mem_cons_of_mem o0 ho))
      hG5 hG6 hG7
    have hloop : collectLoop s3p (o0 :: rest) fs =
        collectLoop s3p rest (fsWrite fs1 (targetOf s3p o0) (FileEntry.blob o0.content)) := by
      conv_lhs => unfold collectLoop
      rw [hco]
      rfl
    obtain ⟨ihflag, ihnames, ihlook, ihdirs⟩ := hIH
    refine ⟨?_, ?_, ?_, ?_⟩
    · rw [hloop]
      exact ihflag
    · rw [hloop, ihnames, hfs2files]
      simp [List.map_cons, List.reverse_cons, List.append_assoc]
    · intro o ho
      rcases List.mem_cons.mp ho with rfl | hmem
      · rw [hloop, collectLoop_frame s3p rest _ _ hnd.1]
        exact lookupKey_fsWrite_self fs1 _ _
      · rw [hloop]
        exact ihlook o hmem
    · intro o ho
      rcases List.mem_cons.mp ho with rfl | hmem
      · rcases hlp1 with h | h
        · exact Or.inl h
        · right
          rw [hloop]
          exact collectLoop_dirs_mono s3p rest _ _ h
      · rw [hloop]
        exact ihdirs o hmem

/-- A successful dump_db has written BUILD_TAG.json. -/
theorem dump_db_ok_json (w : World) (h : (dump_db w).1 = EX_OK) :
    (lookupKey (w.buildTag ++ ".json") (dump_db w).2.fs.files).isSome = true := by
  rw [dump_db_fs]
  rw [dump_db_code] at h
  unfold dump_db_result at h ⊢
  cases hdb : w.dbResponse with
  | transportError =>
    simp only [hdb] at h
    exact absurd h (by decide)
  | response st obody =>
    simp only [hdb] at h
    dsimp only
    by_cases hs : 400 ≤ st ∧ st ≤ 599
    · rw [if_pos hs] at h
      dsimp only at h
      exact absurd h (by decide)
    · rw [if_neg hs] at h ⊢
      cases obody with
      | none =>
        dsimp only at h
        exact absurd h (by decide)
      | some cr =>
        dsimp only
        rw [lookupKey_fsWrite_self]
        rfl

/-- dump_artifacts never deletes an existing file. -/
theorem dump_artifacts_lookup_isSome (w : World) (p : String)
    (h : (lookupKey p w.fs.files).isSome = true) :
    (lookupKey p (dump_artifacts w).2.fs.files).isSome = true := by
  rw [dump_artifacts_fs]
  unfold dump_artifacts_result
  cases w.s3EndpointUrl with
  | none => exact h
  | some ep =>
    dsimp only
    cases w.s3DstUrl with
    | none => exact h
    | some dst =>
      dsimp only
      by_cases ht : w.artifactsTransportOk = true
      · rw [if_pos ht]
        exact collectLoop_lookup_isSome _ _ _ _ h
      · rw [if_neg ht]
        exact h

/-- When a path has no trailing slash, stripping leading slashes (the
regex extraction of dump_artifacts) and stripping slashes at both ends
(the strip of zip_campaign_files) agree. -/
theorem strip_eq_of_no_trailing (p : String) (h : p.data.getLast? ≠ some '/') :
    dump_artifacts_s3path p = zip_dst_path p := by
  unfold dump_artifacts_s3path zip_dst_path
  have hdw : (p.data.dropWhile (fun c => c = '/')).reverse.dropWhile (fun c => c = '/') =
      (p.data.dropWhile (fun c => c = '/')).reverse := by
    cases hm : (p.data.dropWhile (fun c => c = '/')).reverse with
    | nil => rfl
    | cons c t =>
      have hne : p.data.dropWhile (fun c => c = '/') ≠ [] := by
        intro hh
        rw [hh] at hm
        simp at hm
      have hlast : (p.data.dropWhile (fun c => c = '/')).getLast? = p.data.getLast? := by
        conv_rhs => rw [← List.takeWhile_append_dropWhile
          (p := fun c => decide (c = '/')) (l := p.data)]
        exact (List.getLast?_append_of_ne_nil _ hne).symm
      have hhead : (p.data.dropWhile (fun c => c = '/')).reverse.head? = some c := by
        rw [hm]; rfl
      have hc : ¬ (c = '/') := by
        intro hcc
        apply h
        rw [← hlast, List.getLast?_eq_head?_reverse, hhead, hcc]
      simp [List.dropWhile_cons, hc]
  rw [hdw, List.reverse_reverse]

/-- Fully configured world used for concrete runs: scenario-A response
body, scenario-B style destination, every external interaction
succeeding. -/
def wScenarioA : World := {
  buildTag := "build42",
  dbResponse := DbResponse.response 200 (some ⟨[⟨["http://internal/x/a.log"]⟩]⟩),
  store := [],
  s3EndpointUrl := some "http://127.0.0.1:9000",
  s3DstUrl := some "s3://bucket/prefix",
  httpDstUrl := some "http://internal",
  credentialsOk := true,
  uploadOk := true,
  artifactsTransportOk := true,
  fs := { files := [], dirs := [] },
  events := [] }

/-- World whose results API answers HTTP 500. -/
def wDb500 : World := { wScenarioA with dbResponse := DbResponse.response 500 (some ⟨[]⟩) }

/-- C1: with HTTP_DST_URL = http://internal and fetched link
http://internal/x/a.log, dump_db succeeds but writes the link verbatim:
the regex pattern of line 81 lacks the f-string prefix, so it matches the
literal text of the unformatted pattern and never the value of
HTTP_DST_URL; the claimed rewritten link x/a.log is not produced. -/
theorem C1_dump_db_literal_regex_bug :
    (dump_db wScenarioA).1 = EX_OK ∧
    lookupKey "build42.json" (dump_db wScenarioA).2.fs.files =
      some (FileEntry.jsonDoc ⟨[⟨["http://internal/x/a.log"]⟩]⟩) ∧
    dump_db_rewrite_link "http://internal/x/a.log" = "http://internal/x/a.log" :=
  ⟨by decide, by decide, by decide⟩

/-- C8 counterexample: applying the dump_db link rewrite twice is not the
same as applying it once: on a link made of two copies of the broken
literal pattern the first application strips one copy and the second
application strips the other. -/
theorem C8_counterexample_not_idempotent :
    dump_db_rewrite_link (dump_db_rewrite_link "\x7bos.environH\x7d\x7bos.environH\x7dx") ≠
      dump_db_rewrite_link "\x7bos.environH\x7d\x7bos.environH\x7dx" := by decide

/-- The broken pattern, when it matches, consumes at least the 13-character
literal head, so the remainder is strictly shorter than the input. -/
theorem matchBrokenPattern_shortens (l rest : List Char)
    (h : matchBrokenPattern l = some rest) : rest.length < l.length := by
  unfold matchBrokenPattern at h
  split at h
  next b o1 s1 c4 e1 n1 v1 i1 r1 o2 n2 cc rb tail =>
    split at h
    · injection h with h
      subst h
      have hle : (tail.dropWhile (fun c => c = '/')).length ≤ tail.length :=
        (List.dropWhile_sublist _).length_le
      simp only [List.length_cons]
      omega
    · exact absurd h (by simp)
  next =>
    exact absurd h (by simp)

/-- Unfolding equation of the link rewrite, usable at one occurrence. -/
theorem dump_db_rewrite_link_eq (li : String) :
    dump_db_rewrite_link li =
      match matchBrokenPattern li.data with
      | some rest => String.mk rest
      | none => li := rfl

/-- C8 amended: the rewrite of dump_db strips only the fixed literal
pattern, independently of HTTP_DST_URL; a link the pattern does not match
is returned unchanged, and a second application is a no-op exactly when
the output of the first is not matched by the pattern (if it is matched,
the second application strips a nonempty prefix and changes the link). -/
theorem C8_strip_noop_outside_pattern :
    (∀ link : String, matchBrokenPattern link.data = none →
      dump_db_rewrite_link link = link) ∧
    (∀ link : String,
      dump_db_rewrite_link (dump_db_rewrite_link link) = dump_db_rewrite_link link ↔
        matchBrokenPattern (dump_db_rewrite_link link).data = none) := by
  have h1 : ∀ li : String, matchBrokenPattern li.data = none →
      dump_db_rewrite_link li = li := by
    intro li h
    unfold dump_db_rewrite_link
    rw [h]
  refine ⟨h1, fun link => ⟨?_, fun h => h1 _ h⟩⟩
  intro heq
  cases hm : matchBrokenPattern (dump_db_rewrite_link link).data with
  | none => rfl
  | some rest =>
    exfalso
    have hR : dump_db_rewrite_link (dump_db_rewrite_link link) = String.mk rest := by
      rw [dump_db_rewrite_link_eq (dump_db_rewrite_link link), hm]
    have hlen := matchBrokenPattern_shortens _ _ hm
    rw [heq] at hR
    have hsame : (dump_db_rewrite_link link).data.length = rest.length := by
      rw [hR]
    omega

/-- C8 witness: the no-match no-op and the idempotence criterion at the
already stripped link of scenario A. -/
theorem C8_witness_strip_noop :
    dump_db_rewrite_link "x/a.log" = "x/a.log" ∧
    dump_db_rewrite_link (dump_db_rewrite_link "x/a.log") = dump_db_rewrite_link "x/a.log" :=
  ⟨C8_strip_noop_outside_pattern.1 "x/a.log" (by decide),
   (C8_strip_noop_outside_pattern.2 "x/a.log").mpr (by decide)⟩

/-- C2 counterexample: when dump_db fails (HTTP 500), its code is
EX_DUMP_FROM_DB_ERROR, but zip_campaign_files returns
EX_ZIP_CAMPAIGN_FILES_ERROR, not the dependency code: the failed assert
raises AssertionError into the broad except clause. -/
theorem C2_counterexample_db_error_code :
    (dump_db wDb500).1 = EX_DUMP_FROM_DB_ERROR ∧
    (zip_campaign_files wDb500).1 = EX_ZIP_CAMPAIGN_FILES_ERROR ∧
    (zip_campaign_files wDb500).1 ≠ EX_DUMP_FROM_DB_ERROR :=
  ⟨by decide, by decide, by decide⟩

/-- C2 amended: whenever either dependency of zip_campaign_files fails,
zip_campaign_files returns its own generic code
EX_ZIP_CAMPAIGN_FILES_ERROR, never the dependency's code. -/
theorem C2_dependency_failure_generic_code (w : World)
    (h : (dump_db w).1 ≠ EX_OK ∨
      ((dump_db w).1 = EX_OK ∧ (dump_artifacts (dump_db w).2).1 ≠ EX_OK)) :
    (zip_campaign_files w).1 = EX_ZIP_CAMPAIGN_FILES_ERROR := by
  simp only [zip_campaign_files]
  rcases h with h | ⟨h1, h2⟩
  · rw [if_neg h]
  · rw [if_pos h1, if_neg h2]

/-- C2 witness: the amended statement at the HTTP-500 world. -/
theorem C2_witness_generic_code :
    (zip_campaign_files wDb500).1 = EX_ZIP_CAMPAIGN_FILES_ERROR :=
  C2_dependency_failure_generic_code wDb500 (Or.inl (by decide))

/-- C3: on a 4xx/5xx results-API status, dump_db returns its error code
without writing anything, and zip_campaign_files leaves the file system
untouched (no JSON, no archive), appends only the failure log to the
trace, and in particular never enters dump_artifacts. -/
theorem C3_http_error_aborts_pipeline (w : World) (st : Nat) (obody : Option CampaignResult)
    (hresp : w.dbResponse = DbResponse.response st obody)
    (h4 : 400 ≤ st) (h5 : st ≤ 599) :
    (dump_db w).1 = EX_DUMP_FROM_DB_ERROR ∧
    (dump_db w).2.fs = w.fs ∧
    (zip_campaign_files w).2.fs = w.fs ∧
    (zip_campaign_files w).2.events = w.events ++ [Event.logCannotPublish] ∧
    (Event.callDumpArtifacts ∉ w.events →
      Event.callDumpArtifacts ∉ (zip_campaign_files w).2.events) ∧
    (lookupKey (w.buildTag ++ ".zip") w.fs.files = none →
      lookupKey (w.buildTag ++ ".zip") (zip_campaign_files w).2.fs.files = none) := by
  have hdb : (dump_db w).1 = EX_DUMP_FROM_DB_ERROR := by
    rw [dump_db_code]
    unfold dump_db_result
    rw [hresp]
    dsimp only
    rw [if_pos ⟨h4, h5⟩]
  have hfs : (dump_db w).2.fs = w.fs := by
    rw [dump_db_fs]
    unfold dump_db_result
    rw [hresp]
    dsimp only
    rw [if_pos ⟨h4, h5⟩]
  have hne : ¬ (dump_db w).1 = EX_OK := by
    rw [hdb]; decide
  have hzip : zip_campaign_files w =
      (EX_ZIP_CAMPAIGN_FILES_ERROR,
       { (dump_db w).2 with events := (dump_db w).2.events ++ [Event.logCannotPublish] }) := by
    simp only [zip_campaign_files]
    rw [if_neg hne]
  refine ⟨hdb, hfs, ?_, ?_, ?_, ?_⟩
  · rw [hzip]
    exact hfs
  · rw [hzip]
    rfl
  · intro hmem
    rw [hzip]
    intro hc
    rcases List.mem_append.mp hc with hc1 | hc1
    · exact hmem hc1
    · simp at hc1
  · intro hnone
    rw [hzip]
    show lookupKey (w.buildTag ++ ".zip") (dump_db w).2.fs.files = none
    rw [hfs]
    exact hnone

/-- C3 witness: the statement at the HTTP-500 world. -/
theorem C3_witness_http_500 :
    (dump_db wDb500).1 = EX_DUMP_FROM_DB_ERROR ∧
    (dump_db wDb500).2.fs = wDb500.fs ∧
    (zip_campaign_files wDb500).2.fs = wDb500.fs ∧
    (zip_campaign_files wDb500).2.events = wDb500.events ++ [Event.logCannotPublish] ∧
    (Event.callDumpArtifacts ∉ wDb500.events →
      Event.callDumpArtifacts ∉ (zip_campaign_files wDb500).2.events) ∧
    (lookupKey (wDb500.buildTag ++ ".zip") wDb500.fs.files = none →
      lookupKey (wDb500.buildTag ++ ".zip") (zip_campaign_files wDb500).2.fs.files = none) :=
  C3_http_error_aborts_pipeline wDb500 500 (some ⟨[]⟩) rfl (by decide) (by decide)

/-- C7: both dump_artifacts and zip_campaign_files select the multipart
threshold by the same function of the endpoint URL: an endpoint
containing "google" gets 5 * 1024 ^ 5 bytes (effectively disabling
multipart), every other endpoint gets 8 * 1024 * 1024 bytes, a small
threshold enabling chunked transfer. -/
theorem C7_multipart_threshold_rule (ep : String) :
    dump_artifacts_multipart_threshold ep = zip_multipart_threshold ep ∧
    dump_artifacts_multipart_threshold ep =
      (if containsSub "google" ep = true then 5 * 1024 ^ 5 else 8 * 1024 * 1024) ∧
    8 * 1024 * 1024 < 5 * 1024 ^ 5 :=
  ⟨rfl, rfl, by norm_num⟩

/-- C9: the two destination-path extractions (regex group of
dump_artifacts, strip of zip_campaign_files) agree on every S3_DST_URL
whose URL path has no trailing slash, and a trailing slash makes them
differ: on path /pre/ the regex keeps the trailing slash while strip
removes it. -/
theorem C9_dst_path_extraction :
    (∀ url : String, (urlparse_path url).data.getLast? ≠ some '/' →
      dump_artifacts_s3path (urlparse_path url) = zip_dst_path (urlparse_path url)) ∧
    dump_artifacts_s3path (urlparse_path "s3://bucket/pre/") = "pre/" ∧
    zip_dst_path (urlparse_path "s3://bucket/pre/") = "pre" :=
  ⟨fun url h => strip_eq_of_no_trailing _ h, by decide, by decide⟩

/-- C9 witness: the no-trailing-slash part at s3://bucket/pre. -/
theorem C9_witness_no_trailing_slash :
    dump_artifacts_s3path (urlparse_path "s3://bucket/pre") =
      zip_dst_path (urlparse_path "s3://bucket/pre") :=
  C9_dst_path_extraction.1 "s3://bucket/pre" (by decide)

/-- C10: when the listing under the campaign prefix returns no objects,
dump_artifacts returns EX_OK and the local file system (files and
directories) is unchanged. -/
theorem C10_empty_listing_noop (w : World) (ep dst : String)
    (hep : w.s3EndpointUrl = some ep) (hdst : w.s3DstUrl = some dst)
    (htr : w.artifactsTransportOk = true)
    (hempty : listed_objects dst w.buildTag w.store = []) :
    (dump_artifacts w).1 = EX_OK ∧ (dump_artifacts w).2.fs = w.fs := by
  constructor
  · rw [dump_artifacts_code]
    unfold dump_artifacts_result
    rw [hep]
    dsimp only
    rw [hdst]
    dsimp only
    rw [if_pos htr, hempty]
    rfl
  · rw [dump_artifacts_fs]
    unfold dump_artifacts_result
    rw [hep]
    dsimp only
    rw [hdst]
    dsimp only
    rw [if_pos htr, hempty]
    rfl

/-- World whose store holds only an object outside the campaign prefix. -/
def wOther : World := { wScenarioA with store := [⟨"other/file.txt", "z"⟩] }

/-- C10 witness: empty listing at a store with an unrelated object. -/
theorem C10_witness_empty_listing :
    (dump_artifacts wOther).1 = EX_OK ∧ (dump_artifacts wOther).2.fs = wOther.fs :=
  C10_empty_listing_noop wOther "http://127.0.0.1:9000" "s3://bucket/prefix" rfl rfl rfl
    (by decide)

/-- C4: the archive member set is exactly BUILD_TAG.json plus the file
names under the BUILD_TAG directory (hence deterministic in the JSON file
and the artifact tree), and the archive a successful zip_campaign_files
run leaves on disk records the deflate method and exactly that member
set. -/
theorem C4_archive_member_set :
    (∀ (tag : String) (fs : FS) (p : String),
      p ∈ archiveMembers tag fs ↔
        p = tag ++ ".json" ∨
          (p ∈ fs.files.map Prod.fst ∧ strStarts (tag ++ "/") p = true)) ∧
    (∀ (w : World) (ep dst hurl : String),
      w.s3EndpointUrl = some ep → w.s3DstUrl = some dst → w.httpDstUrl = some hurl →
      w.credentialsOk = true → w.uploadOk = true →
      (dump_db w).1 = EX_OK → (dump_artifacts (dump_db w).2).1 = EX_OK →
      lookupKey (w.buildTag ++ ".zip") (zip_campaign_files w).2.fs.files =
        some (FileEntry.zipArchive ZIP_DEFLATED
          (archiveMembers w.buildTag (dump_artifacts (dump_db w).2).2.fs))) := by
  constructor
  · intro tag fs p
    simp [archiveMembers, List.mem_filter]
  · intro w ep dst hurl hep hdst hhttp hcred hup hdb hda
    have hj : (lookupKey (w.buildTag ++ ".json")
        (dump_artifacts (dump_db w).2).2.fs.files).isSome = true :=
      dump_artifacts_lookup_isSome (dump_db w).2 (w.buildTag ++ ".json")
        (dump_db_ok_json w hdb)
    obtain ⟨e, he⟩ := Option.isSome_iff_exists.mp hj
    simp only [zip_campaign_files]
    rw [if_pos hdb, if_pos hda, he]
    try dsimp only
    simp only [dump_artifacts_s3EndpointUrl, dump_db_s3EndpointUrl, hep]
    try dsimp only
    simp only [dump_artifacts_s3DstUrl, dump_db_s3DstUrl, hdst]
    try dsimp only
    simp only [dump_artifacts_credentialsOk, dump_db_credentialsOk, hcred,
               dump_artifacts_uploadOk, dump_db_uploadOk, hup,
               eq_self_iff_true, if_true]
    simp only [dump_artifacts_httpDstUrl, dump_db_httpDstUrl, hhttp]
    try dsimp only
    exact lookupKey_fsWrite_self _ _ _

/-- C4 witness: the success-run conjunct at the fully configured world. -/
theorem C4_witness_archive :
    lookupKey (wScenarioA.buildTag ++ ".zip") (zip_campaign_files wScenarioA).2.fs.files =
      some (FileEntry.zipArchive ZIP_DEFLATED
        (archiveMembers wScenarioA.buildTag (dump_artifacts (dump_db wScenarioA).2).2.fs)) :=
  C4_archive_member_set.2 wScenarioA "http://127.0.0.1:9000" "s3://bucket/prefix"
    "http://internal" rfl rfl rfl rfl rfl (by decide) (by decide)

/-- World whose only stored object has a plus sign in its key. -/
def wPlusKey : World := { wScenarioA with store := [⟨"prefix/build42/a+b.txt", "c"⟩] }

/-- C5 counterexample: the key prefix/build42/a+b.txt percent-decodes to
itself, so the claim places the downloaded file at build42/a+b.txt; but
the code decodes keys with unquote_plus, which also turns the plus into a
space, so after a successful dump_artifacts there is no file at
build42/a+b.txt and the content is at build42/a b.txt instead. -/
theorem C5_counterexample_plus_decoding :
    (dump_artifacts wPlusKey).1 = EX_OK ∧
    lookupKey "build42/a+b.txt" (dump_artifacts wPlusKey).2.fs.files = none ∧
    lookupKey "build42/a b.txt" (dump_artifacts wPlusKey).2.fs.files =
      some (FileEntry.blob "c") :=
  ⟨by decide, by decide, by decide⟩

/-- C5 amended: starting from an empty tree, when the unquote_plus-decoded
prefix-stripped target paths of the listed objects are pairwise distinct
and no object's directory path collides with a target path, a successful
dump_artifacts produces exactly one file per listed object, at the
decoded stripped key, with the object's content, and creates each
object's missing parent directory. -/
theorem C5_amended_collection (w : World) (ep dst : String)
    (hep : w.s3EndpointUrl = some ep)
    (hdst : w.s3DstUrl = some dst)
    (htr : w.artifactsTransportOk = true)
    (hfs : w.fs = { files := [], dirs := [] })
    (hnodup : ((listed_objects dst w.buildTag w.store).map (targetOf (s3path_of_dst dst))).Nodup)
    (hchain : ∀ o ∈ listed_objects dst w.buildTag w.store,
      ∀ o2 ∈ listed_objects dst w.buildTag w.store,
        targetOf (s3path_of_dst dst) o2 ∉ dirChain (lpathOf (s3path_of_dst dst) o))
    (hparent : ∀ o ∈ listed_objects dst w.buildTag w.store,
      os_path_split_head (targetOf (s3path_of_dst dst) o) = lpathOf (s3path_of_dst dst) o)
    (hslash : ∀ o ∈ listed_objects dst w.buildTag w.store,
      (targetOf (s3path_of_dst dst) o).data.getLast? ≠ some '/') :
    (dump_artifacts w).1 = EX_OK ∧
    (dump_artifacts w).2.fs.files.map Prod.fst =
      ((listed_objects dst w.buildTag w.store).map (targetOf (s3path_of_dst dst))).reverse ∧
    (∀ o ∈ listed_objects dst w.buildTag w.store,
      lookupKey (targetOf (s3path_of_dst dst) o) (dump_artifacts w).2.fs.files =
        some (FileEntry.blob o.content)) ∧
    (∀ o ∈ listed_objects dst w.buildTag w.store,
      lpathOf (s3path_of_dst dst) o = "" ∨
        lpathOf (s3path_of_dst dst) o ∈ (dump_artifacts w).2.fs.dirs) := by
  have hspec := collectLoop_spec (s3path_of_dst dst) (listed_objects dst w.buildTag w.store)
    w.fs hnodup hchain hparent hslash
    (by rw [hfs]; intro o ho; simp)
    (by rw [hfs]; intro o ho d hd; simp)
    (by rw [hfs]; intro o ho; simp)
  have hfs2 : (dump_artifacts w).2.fs =
      (collectLoop (s3path_of_dst dst) (listed_objects dst w.buildTag w.store) w.fs).2 := by
    rw [dump_artifacts_fs]
    unfold dump_artifacts_result
    rw [hep]
    dsimp only
    rw [hdst]
    dsimp only
    rw [if_pos htr]
  have hcode : (dump_artifacts w).1 = EX_OK := by
    rw [dump_artifacts_code]
    unfold dump_artifacts_result
    rw [hep]
    dsimp only
    rw [hdst]
    dsimp only
    rw [if_pos htr]
    dsimp only
    rw [if_pos hspec.1]
  obtain ⟨hflag, hnames, hlook, hdirs⟩ := hspec
  refine ⟨hcode, ?_, ?_, ?_⟩
  · rw [hfs2, hnames, hfs]
    simp
  · intro o ho
    rw [hfs2]
    exact hlook o ho
  · intro o ho
    rw [hfs2]
    exact hdirs o ho

/-- World of scenario B: two objects under prefix/build42/. -/
def wScenarioB : World := { wScenarioA with
  store := [⟨"prefix/build42/sub/report.html", "r"⟩, ⟨"prefix/build42/log.txt", "l"⟩] }

/-- C5 witness: the amended statement at scenario B, destination
s3://bucket/prefix with keys prefix/build42/sub/report.html and
prefix/build42/log.txt. -/
theorem C5_witness_scenario_b :
    (dump_artifacts wScenarioB).1 = EX_OK ∧
    (dump_artifacts wScenarioB).2.fs.files.map Prod.fst =
      ((listed_objects "s3://bucket/prefix" wScenarioB.buildTag wScenarioB.store).map
        (targetOf (s3path_of_dst "s3://bucket/prefix"))).reverse ∧
    (∀ o ∈ listed_objects "s3://bucket/prefix" wScenarioB.buildTag wScenarioB.store,
      lookupKey (targetOf (s3path_of_dst "s3://bucket/prefix") o)
        (dump_artifacts wScenarioB).2.fs.files = some (FileEntry.blob o.content)) ∧
    (∀ o ∈ listed_objects "s3://bucket/prefix" wScenarioB.buildTag wScenarioB.store,
      lpathOf (s3path_of_dst "s3://bucket/prefix") o = "" ∨
        lpathOf (s3path_of_dst "s3://bucket/prefix") o ∈ (dump_artifacts wScenarioB).2.fs.dirs) :=
  C5_amended_collection wScenarioB "http://127.0.0.1:9000" "s3://bucket/prefix"
    rfl rfl rfl rfl (by decide) (by decide) (by decide) (by decide)

/-- C6: with unresolvable credentials the publish step fails after the
archive was built: zip_campaign_files returns EX_ZIP_CAMPAIGN_FILES_ERROR,
logs the fill-credentials diagnostic, uploads nothing, and the local
BUILD_TAG.zip still holds the archive just built; the same single code is
returned for a missing environment variable and for a generic upload
failure. -/
theorem C6_missing_credentials :
    (∀ (w : World) (ep dst : String),
      w.s3EndpointUrl = some ep → w.s3DstUrl = some dst →
      w.credentialsOk = false →
      (dump_db w).1 = EX_OK → (dump_artifacts (dump_db w).2).1 = EX_OK →
      (zip_campaign_files w).1 = EX_ZIP_CAMPAIGN_FILES_ERROR ∧
      (zip_campaign_files w).2.events =
        w.events ++ [Event.callDumpArtifacts, Event.logFillCredentials] ∧
      Event.logFillCredentials ∈ (zip_campaign_files w).2.events ∧
      (∀ b k, Event.upload b k ∈ (zip_campaign_files w).2.events →
        Event.upload b k ∈ w.events) ∧
      lookupKey (w.buildTag ++ ".zip") (zip_campaign_files w).2.fs.files =
        some (FileEntry.zipArchive ZIP_DEFLATED
          (archiveMembers w.buildTag (dump_artifacts (dump_db w).2).2.fs))) ∧
    (∀ v : World, v.s3EndpointUrl = none →
      (zip_campaign_files v).1 = EX_ZIP_CAMPAIGN_FILES_ERROR) ∧
    (∀ v : World, v.uploadOk = false →
      (zip_campaign_files v).1 = EX_ZIP_CAMPAIGN_FILES_ERROR) := by
  refine ⟨?_, ?_, ?_⟩
  · intro w ep dst hep hdst hcred hdb hda
    have hj : (lookupKey (w.buildTag ++ ".json")
        (dump_artifacts (dump_db w).2).2.fs.files).isSome = true :=
      dump_artifacts_lookup_isSome (dump_db w).2 (w.buildTag ++ ".json")
        (dump_db_ok_json w hdb)
    obtain ⟨e, he⟩ := Option.isSome_iff_exists.mp hj
    have hzip : zip_campaign_files w =
        (EX_ZIP_CAMPAIGN_FILES_ERROR,
         { (dump_artifacts (dump_db w).2).2 with
            fs := fsWrite (dump_artifacts (dump_db w).2).2.fs (w.buildTag ++ ".zip")
              (FileEntry.zipArchive ZIP_DEFLATED
                (archiveMembers w.buildTag (dump_artifacts (dump_db w).2).2.fs)),
            events := (dump_artifacts (dump_db w).2).2.events ++
              [Event.logFillCredentials] }) := by
      simp only [zip_campaign_files]
      rw [if_pos hdb, if_pos hda, he]
      try dsimp only
      simp only [dump_artifacts_s3EndpointUrl, dump_db_s3EndpointUrl, hep]
      try dsimp only
      simp only [dump_artifacts_s3DstUrl, dump_db_s3DstUrl, hdst]
      try dsimp only
      simp only [dump_artifacts_credentialsOk, dump_db_credentialsOk, hcred]
      rw [if_neg (by decide : ¬ ((false : Bool) = true))]
    have hev : (zip_campaign_files w).2.events =
        w.events ++ [Event.callDumpArtifacts, Event.logFillCredentials] := by
      rw [hzip]
      show (dump_artifacts (dump_db w).2).2.events ++ [Event.logFillCredentials] =
        w.events ++ [Event.callDumpArtifacts, Event.logFillCredentials]
      rw [dump_artifacts_events, dump_db_events]
      simp
    refine ⟨?_, hev, ?_, ?_, ?_⟩
    · rw [hzip]
    · rw [hev]
      simp
    · intro b k hmem
      rw [hev] at hmem
      rcases List.mem_append.mp hmem with h | h
      · exact h
      · simp at h
    · rw [hzip]
      exact lookupKey_fsWrite_self _ _ _
  · intro v hv
    simp only [zip_campaign_files]
    by_cases h1 : (dump_db v).1 = EX_OK
    · rw [if_pos h1]
      have h2 : (dump_artifacts (dump_db v).2).1 = EX_DUMP_ARTIFACTS_ERROR := by
        rw [dump_artifacts_code]
        unfold dump_artifacts_result
        rw [dump_db_s3EndpointUrl, hv]
      rw [if_neg (by rw [h2]; decide)]
    · rw [if_neg h1]
  · intro v hv
    simp only [zip_campaign_files]
    by_cases h1 : (dump_db v).1 = EX_OK
    · rw [if_pos h1]
      by_cases h2 : (dump_artifacts (dump_db v).2).1 = EX_OK
      · rw [if_pos h2]
        cases hj : lookupKey (v.buildTag ++ ".json")
            (dump_artifacts (dump_db v).2).2.fs.files with
        | none => rfl
        | some e =>
          try dsimp only
          cases hep : v.s3EndpointUrl with
          | none =>
            simp only [dump_artifacts_s3EndpointUrl, dump_db_s3EndpointUrl, hep]
          | some ep =>
            simp only [dump_artifacts_s3EndpointUrl, dump_db_s3EndpointUrl, hep]
            try dsimp only
            cases hdst : v.s3DstUrl with
            | none =>
              simp only [dump_artifacts_s3DstUrl, dump_db_s3DstUrl, hdst]
            | some dst =>
              simp only [dump_artifacts_s3DstUrl, dump_db_s3DstUrl, hdst]
              try dsimp only
              by_cases hc : v.credentialsOk = true
              · simp only [dump_artifacts_credentialsOk, dump_db_credentialsOk, hc,
                           eq_self_iff_true, if_true,
                           dump_artifacts_uploadOk, dump_db_uploadOk, hv]
                rw [if_neg (by decide : ¬ ((false : Bool) = true))]
              · simp only [dump_artifacts_credentialsOk, dump_db_credentialsOk]
                rw [if_neg hc]
      · rw [if_neg h2]
    · rw [if_neg h1]

/-- World identical to the fully configured one except that no
object-store credentials resolve. -/
def wNoCreds : World := { wScenarioA with credentialsOk := false }

/-- World with S3_ENDPOINT_URL unset. -/
def wNoEndpoint : World := { wScenarioA with s3EndpointUrl := none }

/-- World whose archive upload fails with a generic error. -/
def wUploadFail : World := { wScenarioA with uploadOk := false }

/-- C6 witness: the three parts at the no-credentials, missing-variable
and failing-upload worlds. -/
theorem C6_witness_credentials :
    ((zip_campaign_files wNoCreds).1 = EX_ZIP_CAMPAIGN_FILES_ERROR ∧
     (zip_campaign_files wNoCreds).2.events =
       wNoCreds.events ++ [Event.callDumpArtifacts, Event.logFillCredentials] ∧
     Event.logFillCredentials ∈ (zip_campaign_files wNoCreds).2.events ∧
     (∀ b k, Event.upload b k ∈ (zip_campaign_files wNoCreds).2.events →
       Event.upload b k ∈ wNoCreds.events) ∧
     lookupKey (wNoCreds.buildTag ++ ".zip") (zip_campaign_files wNoCreds).2.fs.files =
       some (FileEntry.zipArchive ZIP_DEFLATED
         (archiveMembers wNoCreds.buildTag (dump_artifacts (dump_db wNoCreds).2).2.fs))) ∧
    (zip_campaign_files wNoEndpoint).1 = EX_ZIP_CAMPAIGN_FILES_ERROR ∧
    (zip_campaign_files wUploadFail).1 = EX_ZIP_CAMPAIGN_FILES_ERROR :=
  ⟨C6_missing_credentials.1 wNoCreds "http://127.0.0.1:9000" "s3://bucket/prefix"
     rfl rfl rfl (by decide) (by decide),
   C6_missing_credentials.2.1 wNoEndpoint rfl,
   C6_missing_credentials.2.2 wUploadFail rfl⟩
